import Mathlib

/-!
Shallow embedding of the core of the `edppp` estimation backend:
the calculation engine (`app/engine/calculator.py`), the role checks
(`app/auth/rbac.py`), the configuration defaults (`app/config.py`) and
the version-governance entry points (`app/routers/versions.py`,
`app/routers/features.py`, `app/routers/team.py`).

Python `Decimal` values are embedded as `ℚ`; `Decimal.quantize(0.01,
ROUND_HALF_UP)` becomes `roundTo2` (round half away from zero, matching
Python's ROUND_HALF_UP).  Optional columns become `Option ℚ`; fallible
endpoints return `Except GovError _`.
-/

namespace EDPPP

/-- Process-wide settings (`app/config.py`, class `Settings`), restricted
to the fields the calculation engine and governance layer read. -/
structure Settings where
  margin_threshold_warning : ℚ
  effort_override_threshold : ℚ
  default_working_days_per_month : Int
  default_sprint_duration_weeks : Int
  default_hours_per_day : Int
  default_utilization_pct : ℚ
  task_contingency_junior : ℚ
  task_contingency_senior : ℚ
  task_contingency_default : ℚ
deriving Repr

/-- Default values of the settings fields (`app/config.py` lines 33-45). -/
def defaultSettings : Settings :=
  { margin_threshold_warning := 15
  , effort_override_threshold := 15
  , default_working_days_per_month := 20
  , default_sprint_duration_weeks := 2
  , default_hours_per_day := 8
  , default_utilization_pct := 80
  , task_contingency_junior := 23/20
  , task_contingency_senior := 21/20
  , task_contingency_default := 11/10 }

/-- Round a rational to the nearest integer, ties away from zero —
the behaviour of Python's `ROUND_HALF_UP` decimal rounding mode. -/
def roundHalfUpInt (x : ℚ) : ℤ :=
  if 0 ≤ x then ⌊x + 1/2⌋ else -⌊-x + 1/2⌋

/-- `CalculationEngine._round(value, 2)`: quantize to 2 decimal places
with ROUND_HALF_UP. -/
def roundTo2 (x : ℚ) : ℚ :=
  (roundHalfUpInt (x * 100) : ℚ) / 100

/-- Python's `str.strip()` (ASCII whitespace), written as a list
computation so that the kernel can evaluate it on literals. -/
def strTrim (s : String) : String :=
  String.mk (((s.toList.dropWhile Char.isWhitespace).reverse.dropWhile Char.isWhitespace).reverse)

/-- Python's `str.lower()` (ASCII), written as a list computation so that
the kernel can evaluate it on literals. -/
def strToLower (s : String) : String :=
  String.mk (s.toList.map Char.toLower)

/-- Character-list helper: does `hay` start with `pat`? -/
def matchesAt : List Char → List Char → Bool
  | [], _ => true
  | _ :: _, [] => false
  | p :: ps, h :: hs => p = h && matchesAt ps hs

/-- Character-list helper: does `pat` occur contiguously inside the list? -/
def hasSub (pat : List Char) : List Char → Bool
  | [] => pat.isEmpty
  | h :: hs => matchesAt pat (h :: hs) || hasSub pat hs

/-- Python's substring test `pat in hay` on strings. -/
def strContains (hay pat : String) : Bool :=
  hasSub pat.toList hay.toList

/-- `_task_contingency_multiplier(role, settings)` from
`app/engine/calculator.py` lines 11-20: seniority contingency by
case-insensitive substring match on the trimmed role. -/
def task_contingency_multiplier (role : String) (s : Settings) : ℚ :=
  if strTrim role = "" then s.task_contingency_default
  else
    let r := strToLower (strTrim role)
    if strContains r "junior" || strContains r "jr " then s.task_contingency_junior
    else if strContains r "senior" || strContains r "sr " || strContains r "lead" then
      s.task_contingency_senior
    else s.task_contingency_default

/-- A role → (cost-per-day, billing-per-day) table, in insertion order,
mirroring the Python `dict[str, tuple[Decimal, Decimal]]`. -/
abbrev RateTable := List (String × ℚ × ℚ)

/-- `_get_bu_rate_for_role(role, default_rates)` from
`app/engine/calculator.py` lines 23-34: exact lookup of the trimmed
role, then first case-insensitive match, else zero rates. -/
def get_bu_rate_for_role (role : String) (default_rates : RateTable) : ℚ × ℚ :=
  if strTrim role = "" then (0, 0)
  else
    let r := strTrim role
    match default_rates.find? (fun kv => kv.1 = r) with
    | some kv => kv.2
    | none =>
        match default_rates.find? (fun kv => strToLower kv.1 = strToLower r) with
        | some kv => kv.2
        | none => (0, 0)

/-- Team member (`app/models/team.py`): the rate columns are nullable
decimals; `working_days_per_month` and `hours_per_day` are non-null
integers. -/
structure TeamMember where
  role : String
  cost_rate_per_day : Option ℚ
  billing_rate_per_day : Option ℚ
  monthly_cost_rate : Option ℚ
  billing_rate : Option ℚ
  utilization_pct : ℚ
  working_days_per_month : Int
  hours_per_day : Int
deriving DecidableEq, Repr

/-- `_resolve_cost_rate_per_day(member, default_rates)` from
`app/engine/calculator.py` lines 37-47.  The second guard is Python
truthiness of the integer `working_days_per_month`, i.e. `≠ 0`. -/
def resolve_cost_rate_per_day (m : TeamMember) (default_rates : RateTable) : ℚ :=
  if 0 < m.cost_rate_per_day.getD 0 then m.cost_rate_per_day.getD 0
  else if 0 < m.monthly_cost_rate.getD 0 ∧ m.working_days_per_month ≠ 0 then
    m.monthly_cost_rate.getD 0 / (m.working_days_per_month : ℚ)
  else (get_bu_rate_for_role m.role default_rates).1

/-- `_resolve_billing_rate_per_day(member, default_rates)` from
`app/engine/calculator.py` lines 50-60.  The second guard is Python
truthiness of the integer `hours_per_day`, i.e. `≠ 0`. -/
def resolve_billing_rate_per_day (m : TeamMember) (default_rates : RateTable) : ℚ :=
  if 0 < m.billing_rate_per_day.getD 0 then m.billing_rate_per_day.getD 0
  else if 0 < m.billing_rate.getD 0 ∧ m.hours_per_day ≠ 0 then
    m.billing_rate.getD 0 * (m.hours_per_day : ℚ)
  else (get_bu_rate_for_role m.role default_rates).2

/-- Feature (`app/models/feature.py`), restricted to the fields the
engine reads. -/
structure Feature where
  id : Nat
  name : String
  effort_hours : ℚ
deriving Repr

/-- Effort allocation (`app/models/estimation.py`, `EffortAllocation`). -/
structure EffortAllocation where
  role : String
  allocation_pct : ℚ
  effort_hours : ℚ
deriving Repr

/-- `CalculationEngine.gross_margin(revenue, cost)` from
`app/engine/calculator.py` lines 223-227. -/
def gross_margin (revenue cost : ℚ) : Option ℚ :=
  if revenue = 0 then none
  else some (roundTo2 ((revenue - cost) / revenue * 100))

/-- `CalculationEngine.reverse_margin_revenue(cost, target_margin_pct)`
from `app/engine/calculator.py` lines 233-240. -/
def reverse_margin_revenue (cost target_margin_pct : ℚ) : ℚ :=
  if 100 ≤ target_margin_pct then 0
  else
    let factor := 1 - target_margin_pct / 100
    if factor ≤ 0 then 0 else roundTo2 (cost / factor)

/-- `CalculationEngine.effort_override_exceeds_threshold(previous, new)`
from `app/engine/calculator.py` lines 295-304: the absolute value is
taken of the whole quotient `(new - previous) / previous * 100`. -/
def effort_override_exceeds_threshold (s : Settings) (previous_effort new_effort : ℚ) : Bool :=
  if previous_effort = 0 then decide (new_effort ≠ 0)
  else decide (s.effort_override_threshold < |(new_effort - previous_effort) / previous_effort * 100|)

/-- Cost contribution of one explicit allocation inside
`CalculationEngine.base_cost` (`app/engine/calculator.py` lines 121-142):
match a team member by exact role equality, else fall back to the
organization rate with default hours/utilization. -/
def alloc_cost (s : Settings) (team : List TeamMember) (default_rates : RateTable)
    (a : EffortAllocation) : ℚ :=
  let role_hours := a.effort_hours * task_contingency_multiplier a.role s
  match team.find? (fun m => m.role = a.role) with
  | some member =>
      let cost_rate := resolve_cost_rate_per_day member default_rates
      let hpd : ℚ := ((if member.hours_per_day ≠ 0 then member.hours_per_day
                       else s.default_hours_per_day) : ℚ)
      let util := member.utilization_pct / 100
      if 0 < hpd ∧ 0 < util then role_hours * (cost_rate / (hpd * util)) else 0
  | none =>
      let cost_rate := (get_bu_rate_for_role a.role default_rates).1
      let hpd : ℚ := (s.default_hours_per_day : ℚ)
      let util := s.default_utilization_pct / 100
      if 0 < cost_rate ∧ 0 < hpd ∧ 0 < util then role_hours * (cost_rate / (hpd * util)) else 0

/-- Cost contribution of one feature inside `CalculationEngine.base_cost`
(`app/engine/calculator.py` lines 118-156): explicit allocations when
present, else the first-team-member fallback. -/
def feature_cost (s : Settings) (team : List TeamMember)
    (allocations : List EffortAllocation) (f : Feature) (default_rates : RateTable) : ℚ :=
  match allocations with
  | [] =>
      match team with
      | [] => 0
      | m0 :: _ =>
          let mult := task_contingency_multiplier m0.role s
          let role_hours := f.effort_hours * mult
          let cost_rate := resolve_cost_rate_per_day m0 default_rates
          let hpd : ℚ := ((if m0.hours_per_day ≠ 0 then m0.hours_per_day
                           else s.default_hours_per_day) : ℚ)
          let util := m0.utilization_pct / 100
          if 0 < hpd ∧ 0 < util then role_hours * (cost_rate / (hpd * util)) else 0
  | _ :: _ => (allocations.map (alloc_cost s team default_rates)).sum

/-- `CalculationEngine.base_cost(team_members, features, effort_allocations,
default_rates)` from `app/engine/calculator.py` lines 109-157; the
allocation dictionary is embedded as a function from feature id to the
(possibly empty) allocation list. -/
def base_cost (s : Settings) (team : List TeamMember) (features : List Feature)
    (effort_allocations : Nat → List EffortAllocation) (default_rates : RateTable) : ℚ :=
  roundTo2 ((features.map
    (fun f => feature_cost s team (effort_allocations f.id) f default_rates)).sum)

/-- `can_edit_team(roles)` from `app/auth/rbac.py` lines 62-66. -/
def can_edit_team (roles : List String) : Bool :=
  roles.any (fun r => ["admin", "delivery_manager"].contains (strToLower r))

/-- `can_edit_features(roles)` from `app/auth/rbac.py` lines 69-73. -/
def can_edit_features (roles : List String) : Bool :=
  roles.any (fun r => ["admin", "delivery_manager", "business_analyst"].contains (strToLower r))

/-- `can_modify_effort(roles)` from `app/auth/rbac.py` lines 76-80. -/
def can_modify_effort (roles : List String) : Bool :=
  roles.any (fun r => ["admin", "technical_architect"].contains (strToLower r))

/-- `can_lock_project(roles)` from `app/auth/rbac.py` lines 83-87. -/
def can_lock_project (roles : List String) : Bool :=
  roles.any (fun r => ["admin", "finance_reviewer"].contains (strToLower r))

/-- `can_unlock_project(roles)` from `app/auth/rbac.py` lines 90-91. -/
def can_unlock_project (roles : List String) : Bool :=
  roles.any (fun r => strToLower r == "admin")

/-- Lifecycle status (`app/models/project.py`, `ProjectStatus`); `legacy`
stands for the backward-compatibility value `"locked"`. -/
inductive Status where
  | draft
  | review
  | submitted
  | won
  | legacy
deriving DecidableEq, Repr

/-- `STATUS_TRANSITIONS` from `app/schemas/project.py` lines 43-48: the
allowed targets of each current status (empty for the legacy value,
which is absent from the dictionary). -/
def statusAllowedTargets : Status → List Status
  | .draft => [.review]
  | .review => [.submitted, .draft]
  | .submitted => [.won, .review]
  | .won => []
  | .legacy => []

/-- Governance rejection reasons, abstracting the `HTTPException`s of the
routers: `locked` is the 400 "Version is locked" failure, `forbidden`
any 403, `invalidTransition` the 400 on a disallowed status change,
`notLocked` the 400 "Not locked" of unlock, `badJustification` the 400
"Justification required", `badReason` the query validation on unlock. -/
inductive GovError where
  | locked
  | forbidden
  | invalidTransition
  | notLocked
  | badJustification
  | badReason
deriving DecidableEq, Repr

/-- Governed mutable state of a `ProjectVersion`
(`app/models/project.py`): lifecycle status, lock flag and metadata,
and the version-level editable fields. -/
structure GovState where
  status : Status
  is_locked : Bool
  locked_by : Option Nat
  locked_at : Option Nat
  contingency_pct : ℚ
  management_reserve_pct : ℚ
  notes : String
deriving DecidableEq, Repr

/-- Payload of `PATCH /versions/{id}` (`ProjectVersionUpdate`). -/
structure VersionUpdate where
  contingency_pct : Option ℚ
  management_reserve_pct : Option ℚ
  notes : Option String
deriving Repr

/-- `update_version` from `app/routers/versions.py` lines 63-92: locked
check first, then team-edit authority, then field-by-field update. -/
def update_version (st : GovState) (roles : List String) (data : VersionUpdate) :
    Except GovError GovState :=
  if st.is_locked then .error .locked
  else if !can_edit_team roles then .error .forbidden
  else .ok { st with
    contingency_pct := data.contingency_pct.getD st.contingency_pct
    management_reserve_pct := data.management_reserve_pct.getD st.management_reserve_pct
    notes := data.notes.getD st.notes }

/-- `transition_status` from `app/routers/versions.py` lines 95-138:
locked check, transition-table check, then authority split between
"won" (finance/admin) and the rest (feature editors); reaching "won"
also sets the lock flag and metadata in the same step. -/
def transition_status (st : GovState) (roles : List String) (user now : Nat)
    (target : Status) : Except GovError GovState :=
  if st.is_locked then .error .locked
  else if !(statusAllowedTargets st.status).contains target then .error .invalidTransition
  else if target = .won then
    if !can_lock_project roles then .error .forbidden
    else .ok { st with status := .won, is_locked := true,
                       locked_by := some user, locked_at := some now }
  else
    if !can_edit_features roles then .error .forbidden
    else .ok { st with status := target }

/-- `lock_version` from `app/routers/versions.py` lines 141-174:
finance/admin authority, not already locked, status must be
"submitted"; then mark Won and lock. -/
def lock_version (st : GovState) (roles : List String) (user now : Nat) :
    Except GovError GovState :=
  if !can_lock_project roles then .error .forbidden
  else if st.is_locked then .error .locked
  else if st.status ≠ .submitted then .error .invalidTransition
  else .ok { st with status := .won, is_locked := true,
                     locked_by := some user, locked_at := some now }

/-- `unlock_version` from `app/routers/versions.py` lines 177-205: the
reason is a query parameter with `min_length=1` (validated by the
framework before the handler), then admin authority, then the
must-be-locked check; on success the lock flag and metadata are
cleared and the status is unconditionally set to "submitted". -/
def unlock_version (st : GovState) (roles : List String) (reason : String) :
    Except GovError GovState :=
  if reason.length < 1 then .error .badReason
  else if !can_unlock_project roles then .error .forbidden
  else if !st.is_locked then .error .notLocked
  else .ok { st with is_locked := false, locked_by := none, locked_at := none,
                     status := .submitted }

/-- Payload of `POST /features` (`FeatureCreate`), restricted to the
fields the governance claims need. -/
structure FeatureCreateData where
  name : String
  effort_hours : ℚ
deriving DecidableEq, Repr

/-- `add_feature` from `app/routers/features.py` lines 91-149: the
feature-edit authority check runs first; `_get_version` (which raises
the "Version is locked" failure) runs second. -/
def add_feature (version_locked : Bool) (roles : List String) (data : FeatureCreateData) :
    Except GovError FeatureCreateData :=
  if !can_edit_features roles then .error .forbidden
  else if version_locked then .error .locked
  else .ok data

/-- `add_team_member` from `app/routers/team.py` lines 89-134: the
team-edit authority check runs first, the locked check second; missing
per-day rates are backfilled from the organization table by exact role
equality (`RoleDefaultRate.role == data.role`). -/
def add_team_member (version_locked : Bool) (roles : List String) (data : TeamMember)
    (default_rates : RateTable) : Except GovError TeamMember :=
  if !can_edit_team roles then .error .forbidden
  else if version_locked then .error .locked
  else
    let row := default_rates.find? (fun kv => kv.1 = data.role)
    let cost := match data.cost_rate_per_day, row with
      | none, some kv => some kv.2.1
      | c, _ => c
    let billing := match data.billing_rate_per_day, row with
      | none, some kv => some kv.2.2
      | b, _ => b
    .ok { data with cost_rate_per_day := cost, billing_rate_per_day := billing }

/-- Mutable feature state touched by `update_feature`. -/
structure FeatureState where
  name : String
  effort_hours : ℚ
deriving DecidableEq, Repr

/-- Payload of `PATCH /features/{id}` (`FeatureUpdate`), restricted to
the fields the governance claims need. -/
structure FeatureUpdateData where
  name : Option String
  effort_hours : Option ℚ
deriving Repr

/-- An `EstimationHistory` row (`app/models/estimation.py`). -/
structure EstimationHistoryRec where
  previous_effort : ℚ
  new_effort : ℚ
  changed_by : Nat
  authority : String
deriving DecidableEq, Repr

/-- A `JustificationLog` row (`app/models/estimation.py`). -/
structure JustificationRec where
  previous_effort : ℚ
  new_effort : ℚ
  justification : String
  created_by : Nat
deriving DecidableEq, Repr

/-- Result of a successful `update_feature`: the updated feature plus
the appended-to history and justification logs. -/
structure UpdateFeatureResult where
  feature : FeatureState
  history : List EstimationHistoryRec
  justifications : List JustificationRec
deriving DecidableEq, Repr

/-- `update_feature` from `app/routers/features.py` lines 197-318,
restricted to the name/effort fields: locked check (via `_get_version`)
first; when `effort_hours` is supplied, the caller needs effort-modify
or feature-edit authority, the threshold gate requires a technical
architect or admin role plus a justification of at least 10 trimmed
characters and appends a `JustificationLog` row, and every effort
change appends an `EstimationHistory` row before the value is set;
when `effort_hours` is absent, plain feature-edit authority gates the
remaining field updates.  An error result models the raised
`HTTPException`, which rolls back the transaction: nothing is applied. -/
def update_feature (s : Settings) (version_locked : Bool) (roles : List String)
    (user : Nat) (feature : FeatureState)
    (history : List EstimationHistoryRec) (justifications : List JustificationRec)
    (data : FeatureUpdateData) (justification : Option String) :
    Except GovError UpdateFeatureResult :=
  if version_locked then .error .locked
  else
    match data.effort_hours with
    | some newEffort =>
        if !can_modify_effort roles && !can_edit_features roles then .error .forbidden
        else if effort_override_exceeds_threshold s feature.effort_hours newEffort then
          if !(roles.any (fun r => strToLower r == "technical_architect"))
              && !(roles.any (fun r => strToLower r == "admin")) then
            .error .forbidden
          else if (strTrim (justification.getD "")).length < 10 then .error .badJustification
          else
            let jrec : JustificationRec :=
              { previous_effort := feature.effort_hours
              , new_effort := newEffort
              , justification := justification.getD ""
              , created_by := user }
            let hrec : EstimationHistoryRec :=
              { previous_effort := feature.effort_hours
              , new_effort := newEffort
              , changed_by := user
              , authority := if can_modify_effort roles then "technical_architect"
                             else "business_analyst" }
            .ok { feature := { name := data.name.getD feature.name, effort_hours := newEffort }
                , history := history ++ [hrec]
                , justifications := justifications ++ [jrec] }
        else
          let hrec : EstimationHistoryRec :=
            { previous_effort := feature.effort_hours
            , new_effort := newEffort
            , changed_by := user
            , authority := if can_modify_effort roles then "technical_architect"
                           else "business_analyst" }
          .ok { feature := { name := data.name.getD feature.name, effort_hours := newEffort }
              , history := history ++ [hrec]
              , justifications := justifications }
    | none =>
        if !can_edit_features roles then .error .forbidden
        else .ok { feature := { name := data.name.getD feature.name
                              , effort_hours := feature.effort_hours }
                 , history := history
                 , justifications := justifications }

/-- Governance operations on a single version, for the lock/status
invariant: status transitions, explicit lock, unlock, and version-field
updates. -/
inductive GovOp where
  | transition (roles : List String) (user now : Nat) (target : Status)
  | lock (roles : List String) (user now : Nat)
  | unlock (roles : List String) (reason : String)
  | update (roles : List String) (data : VersionUpdate)

/-- Apply one governance operation; a rejected operation leaves the
externally persisted state unchanged (the raised `HTTPException`
aborts the transaction). -/
def applyOp (st : GovState) : GovOp → GovState
  | .transition roles user now target =>
      match transition_status st roles user now target with
      | .ok st2 => st2
      | .error _ => st
  | .lock roles user now =>
      match lock_version st roles user now with
      | .ok st2 => st2
      | .error _ => st
  | .unlock roles reason =>
      match unlock_version st roles reason with
      | .ok st2 => st2
      | .error _ => st
  | .update roles data =>
      match update_version st roles data with
      | .ok st2 => st2
      | .error _ => st

/-- A freshly created version: status "draft", unlocked, no lock
metadata (`app/models/project.py` defaults). -/
def initGovState : GovState :=
  { status := .draft
  , is_locked := false
  , locked_by := none
  , locked_at := none
  , contingency_pct := 0
  , management_reserve_pct := 0
  , notes := "" }

/-- The inline technical-architect/admin check of `update_feature`
coincides with `can_modify_effort` from `app/auth/rbac.py`. -/
theorem ta_admin_check_eq_can_modify_effort (roles : List String) :
    (roles.any (fun r => strToLower r == "technical_architect")
      || roles.any (fun r => strToLower r == "admin")) = can_modify_effort roles := by
  unfold can_modify_effort
  rw [Bool.eq_iff_iff]
  simp only [Bool.or_eq_true, List.any_eq_true, beq_iff_eq]
  constructor
  · rintro (⟨x, hx, he⟩ | ⟨x, hx, he⟩) <;>
      exact ⟨x, hx, by simp [List.elem_eq_mem, he]⟩
  · rintro ⟨x, hx, he⟩
    have h2 : strToLower x = "admin" ∨ strToLower x = "technical_architect" := by
      simpa [List.elem_eq_mem] using he
    rcases h2 with h | h
    · exact Or.inr ⟨x, hx, h⟩
    · exact Or.inl ⟨x, hx, h⟩

/-- C4: on an unlocked version, `transition_status` succeeds exactly when
the target is allowed by the transition table (draft→{review};
review→{submitted, draft}; submitted→{won, review}; won→{}, restated
literally in the last four conjuncts) and the caller holds feature-edit
authority for non-"won" targets or finance/admin lock authority for
"won"; a successful transition to "won" also sets the lock flag, the
locking actor and the timestamp in the same step. -/
theorem c4_transition_status_gate (st : GovState) (roles : List String)
    (user now : Nat) (target : Status) (hU : st.is_locked = false) :
    ((∃ st2, transition_status st roles user now target = .ok st2) ↔
      (target ∈ statusAllowedTargets st.status ∧
        ((target = .won ∧ can_lock_project roles = true) ∨
         (target ≠ .won ∧ can_edit_features roles = true)))) ∧
    (∀ st2, transition_status st roles user now target = .ok st2 → target = .won →
      st2 = { st with status := .won, is_locked := true,
                      locked_by := some user, locked_at := some now }) ∧
    (∀ st2, transition_status st roles user now target = .ok st2 → target ≠ .won →
      st2 = { st with status := target }) ∧
    statusAllowedTargets .draft = [.review] ∧
    statusAllowedTargets .review = [.submitted, .draft] ∧
    statusAllowedTargets .submitted = [.won, .review] ∧
    statusAllowedTargets .won = [] := by
  refine ⟨?_, ?_, ?_, rfl, rfl, rfl, rfl⟩ <;>
    unfold transition_status <;>
    rw [hU] <;>
    by_cases hmem : (statusAllowedTargets st.status).contains target <;>
    by_cases hw : target = .won <;>
    by_cases hlp : can_lock_project roles <;>
    by_cases hef : can_edit_features roles <;>
    simp_all [List.elem_eq_mem]

/-- Witness for C4: from an unlocked "submitted" version, a finance
reviewer can transition to "won", and any such success carries the lock
flag, actor 4 and timestamp 9. -/
theorem c4_transition_status_gate_witness :
    (∃ st2, transition_status
      { status := .submitted, is_locked := false, locked_by := none, locked_at := none
      , contingency_pct := 0, management_reserve_pct := 0, notes := "" }
      ["finance_reviewer"] 4 9 .won = .ok st2) ∧
    (∀ st2, transition_status
      { status := .submitted, is_locked := false, locked_by := none, locked_at := none
      , contingency_pct := 0, management_reserve_pct := 0, notes := "" }
      ["finance_reviewer"] 4 9 .won = .ok st2 →
      st2 = { status := .won, is_locked := true, locked_by := some 4, locked_at := some 9
            , contingency_pct := 0, management_reserve_pct := 0, notes := "" }) :=
  ⟨(c4_transition_status_gate
      { status := .submitted, is_locked := false, locked_by := none, locked_at := none
      , contingency_pct := 0, management_reserve_pct := 0, notes := "" }
      ["finance_reviewer"] 4 9 .won rfl).1.mpr
      ⟨by decide, Or.inl ⟨rfl, by decide⟩⟩,
   fun st2 hok => (c4_transition_status_gate
      { status := .submitted, is_locked := false, locked_by := none, locked_at := none
      , contingency_pct := 0, management_reserve_pct := 0, notes := "" }
      ["finance_reviewer"] 4 9 .won rfl).2.1 st2 hok rfl⟩

/-- C6: unlock on a locked version by a caller with admin (unlock)
authority and a non-empty reason always sets the status to "submitted"
regardless of the prior status, clears the lock flag and the
locker/timestamp metadata; a caller without that authority is rejected,
as is an unlocked version. -/
theorem c6_unlock_version_spec (st : GovState) (roles : List String) (reason : String)
    (hreason : 1 ≤ reason.length) :
    (can_unlock_project roles = true → st.is_locked = true →
      unlock_version st roles reason =
        .ok { st with is_locked := false, locked_by := none, locked_at := none,
                      status := .submitted }) ∧
    (can_unlock_project roles = false →
      unlock_version st roles reason = .error .forbidden) ∧
    (can_unlock_project roles = true → st.is_locked = false →
      unlock_version st roles reason = .error .notLocked) := by
  unfold unlock_version
  rw [if_neg (by omega : ¬ reason.length < 1)]
  refine ⟨fun hcan hlock => ?_, fun hcan => ?_, fun hcan hlock => ?_⟩ <;>
    simp_all

/-- Witness for C6: unlocking a locked "won" version as admin with
reason "client renegotiation" demotes it to "submitted" and clears the
lock metadata. -/
theorem c6_unlock_version_spec_witness :
    unlock_version
      { status := .won, is_locked := true, locked_by := some 7, locked_at := some 3
      , contingency_pct := 0, management_reserve_pct := 0, notes := "" }
      ["admin"] "client renegotiation" =
    .ok { status := .submitted, is_locked := false, locked_by := none, locked_at := none
        , contingency_pct := 0, management_reserve_pct := 0, notes := "" } :=
  (c6_unlock_version_spec
      { status := .won, is_locked := true, locked_by := some 7, locked_at := some 3
      , contingency_pct := 0, management_reserve_pct := 0, notes := "" }
      ["admin"] "client renegotiation" (by decide)).1 (by decide) rfl

/-- Preservation helper for the lock/status invariant: every governance
operation keeps "locked iff won". -/
theorem applyOp_preserves_lock_iff_won (st : GovState)
    (h : st.is_locked = true ↔ st.status = .won) (op : GovOp) :
    ((applyOp st op).is_locked = true ↔ (applyOp st op).status = .won) := by
  cases op with
  | transition roles user now target =>
      simp only [applyOp]
      unfold transition_status
      by_cases hl : st.is_locked <;>
        by_cases hmem : (statusAllowedTargets st.status).contains target <;>
        by_cases hw : target = .won <;>
        by_cases hlp : can_lock_project roles <;>
        by_cases hef : can_edit_features roles <;>
        simp_all
  | lock roles user now =>
      simp only [applyOp]
      unfold lock_version
      by_cases hlp : can_lock_project roles <;>
        by_cases hl : st.is_locked <;>
        by_cases hs : st.status = Status.submitted <;>
        simp_all
  | unlock roles reason =>
      simp only [applyOp]
      unfold unlock_version
      by_cases hr : reason.length < 1 <;>
        by_cases hcan : can_unlock_project roles <;>
        by_cases hl : st.is_locked <;>
        simp_all
  | update roles data =>
      simp only [applyOp]
      unfold update_version
      by_cases hl : st.is_locked <;>
        by_cases hce : can_edit_team roles <;>
        simp_all

/-- C10: starting from a freshly created version (status "draft",
unlocked), every sequence of governance operations (status transitions,
explicit lock, unlock, version-field updates) preserves the invariant
that the lock flag is set exactly when the status is "won". -/
theorem c10_lock_status_invariant (ops : List GovOp) :
    ((ops.foldl applyOp initGovState).is_locked = true ↔
      (ops.foldl applyOp initGovState).status = .won) := by
  suffices h : ∀ st, (st.is_locked = true ↔ st.status = .won) →
      ((ops.foldl applyOp st).is_locked = true ↔ (ops.foldl applyOp st).status = .won) by
    exact h initGovState (by simp [initGovState])
  induction ops with
  | nil => exact fun st h => h
  | cons op rest ih =>
      exact fun st h => ih (applyOp st op) (applyOp_preserves_lock_iff_won st h op)

/-- C1: the effort-override gate of `update_feature` on an unlocked
version.  When the change exceeds the threshold, a caller without a
technical-architect or admin role is rejected, as is a qualified caller
whose justification has fewer than 10 trimmed characters; a qualified
caller with a long-enough justification gets exactly one justification
record and one history record appended together with the effort update;
a change not exceeding the threshold is authorized to any holder of
feature-edit authority and appends a history record but no
justification record.  Errors model the raised `HTTPException`, which
aborts the transaction, so a rejected mutation applies nothing. -/
theorem c1_effort_override_gate (s : Settings) (roles : List String) (user : Nat)
    (feature : FeatureState) (history : List EstimationHistoryRec)
    (justifications : List JustificationRec) (newEffort : ℚ)
    (nameUpd : Option String) (justification : Option String) :
    (effort_override_exceeds_threshold s feature.effort_hours newEffort = true →
      can_modify_effort roles = false →
      update_feature s false roles user feature history justifications
        { name := nameUpd, effort_hours := some newEffort } justification =
        .error .forbidden) ∧
    (effort_override_exceeds_threshold s feature.effort_hours newEffort = true →
      can_modify_effort roles = true →
      (strTrim (justification.getD "")).length < 10 →
      update_feature s false roles user feature history justifications
        { name := nameUpd, effort_hours := some newEffort } justification =
        .error .badJustification) ∧
    (effort_override_exceeds_threshold s feature.effort_hours newEffort = true →
      can_modify_effort roles = true →
      10 ≤ (strTrim (justification.getD "")).length →
      update_feature s false roles user feature history justifications
        { name := nameUpd, effort_hours := some newEffort } justification =
        .ok { feature := { name := nameUpd.getD feature.name, effort_hours := newEffort }
            , history := history ++
                [{ previous_effort := feature.effort_hours, new_effort := newEffort
                 , changed_by := user, authority := "technical_architect" }]
            , justifications := justifications ++
                [{ previous_effort := feature.effort_hours, new_effort := newEffort
                 , justification := justification.getD "", created_by := user }] }) ∧
    (effort_override_exceeds_threshold s feature.effort_hours newEffort = false →
      can_edit_features roles = true →
      update_feature s false roles user feature history justifications
        { name := nameUpd, effort_hours := some newEffort } justification =
        .ok { feature := { name := nameUpd.getD feature.name, effort_hours := newEffort }
            , history := history ++
                [{ previous_effort := feature.effort_hours, new_effort := newEffort
                 , changed_by := user
                 , authority := if can_modify_effort roles then "technical_architect"
                                else "business_analyst" }]
            , justifications := justifications }) := by
  unfold update_feature
  rw [← Bool.not_or, ← Bool.not_or, ta_admin_check_eq_can_modify_effort]
  refine ⟨fun hex hcm => ?_, fun hex hcm hshort => ?_, fun hex hcm hlong => ?_,
    fun hex hce => ?_⟩
  · by_cases hce : can_edit_features roles <;> simp_all
  · simp_all
  · have hno : ¬ (strTrim (justification.getD "")).length < 10 := by omega
    simp_all
  · simp_all

/-- Witness for C1 running the spec scenario: effort 100 → 130 (a 30%
change) is rejected for a business analyst, rejected for a technical
architect with the 5-character justification "short", and accepted for
a technical architect with the 12-character justification
"long enough!", producing both records. -/
theorem c1_effort_override_gate_witness :
    update_feature defaultSettings false ["business_analyst"] 1
      { name := "F", effort_hours := 100 } [] []
      { name := none, effort_hours := some 130 } none = .error .forbidden ∧
    update_feature defaultSettings false ["technical_architect"] 1
      { name := "F", effort_hours := 100 } [] []
      { name := none, effort_hours := some 130 } (some "short") =
      .error .badJustification ∧
    update_feature defaultSettings false ["technical_architect"] 1
      { name := "F", effort_hours := 100 } [] []
      { name := none, effort_hours := some 130 } (some "long enough!") =
      .ok { feature := { name := "F", effort_hours := 130 }
          , history := [{ previous_effort := 100, new_effort := 130, changed_by := 1
                        , authority := "technical_architect" }]
          , justifications := [{ previous_effort := 100, new_effort := 130
                               , justification := "long enough!", created_by := 1 }] } := by
  have hex : effort_override_exceeds_threshold defaultSettings
      (FeatureState.effort_hours { name := "F", effort_hours := 100 }) 130 = true := by
    norm_num [effort_override_exceeds_threshold, defaultSettings]
  refine ⟨(c1_effort_override_gate defaultSettings ["business_analyst"] 1
      { name := "F", effort_hours := 100 } [] [] 130 none none).1 hex (by decide),
    (c1_effort_override_gate defaultSettings ["technical_architect"] 1
      { name := "F", effort_hours := 100 } [] [] 130 none (some "short")).2.1
      hex (by decide) (by decide),
    (c1_effort_override_gate defaultSettings ["technical_architect"] 1
      { name := "F", effort_hours := 100 } [] [] 130 none (some "long enough!")).2.2.1
      hex (by decide) (by decide)⟩

/-- C5 counterexample: on a locked version, `add_feature` invoked by a
caller without feature-edit authority is rejected with the authority
failure, not the "locked" failure — so the locked check does not run
before every other validation on every mutation entry point. -/
theorem c5_locked_first_cex :
    add_feature true ["viewer"] { name := "F", effort_hours := 1 } =
      .error .forbidden ∧
    GovError.forbidden ≠ GovError.locked := by
  constructor
  · have h : can_edit_features ["viewer"] = false := by decide
    simp [add_feature, h]
  · decide

/-- C5 amended: every modeled mutation entry point rejects a locked
version without applying anything; `update_version`, `transition_status`
and `update_feature` reject with the "locked" failure before checking
the caller's authority, while `add_feature` and `add_team_member` check
the caller's authority first and surface the "locked" failure only to
authorized callers. -/
theorem c5_locked_rejection (s : Settings) (st : GovState) (roles : List String)
    (user now : Nat) (target : Status) (vdata : VersionUpdate)
    (feature : FeatureState) (history : List EstimationHistoryRec)
    (justifications : List JustificationRec) (fdata : FeatureUpdateData)
    (justification : Option String) (fcdata : FeatureCreateData)
    (tdata : TeamMember) (default_rates : RateTable)
    (hlock : st.is_locked = true) :
    update_version st roles vdata = .error .locked ∧
    transition_status st roles user now target = .error .locked ∧
    update_feature s true roles user feature history justifications fdata justification =
      .error .locked ∧
    add_feature true roles fcdata =
      .error (if can_edit_features roles then GovError.locked else GovError.forbidden) ∧
    (∃ e, add_team_member true roles tdata default_rates = .error e ∧
      (can_edit_team roles = true → e = .locked)) := by
  refine ⟨?_, ?_, ?_, ?_, ?_⟩
  · unfold update_version
    rw [hlock]
    rfl
  · unfold transition_status
    rw [hlock]
    rfl
  · rfl
  · unfold add_feature
    by_cases hce : can_edit_features roles <;> simp [hce]
  · unfold add_team_member
    by_cases hce : can_edit_team roles <;> simp [hce]

/-- Witness for C5 (amended) on a concrete locked "won" version: the
update entry points fail with the "locked" error even for an admin. -/
theorem c5_locked_rejection_witness :
    update_version
      { status := .won, is_locked := true, locked_by := some 4, locked_at := some 9
      , contingency_pct := 0, management_reserve_pct := 0, notes := "" }
      ["admin"] { contingency_pct := none, management_reserve_pct := none, notes := none } =
      .error .locked ∧
    transition_status
      { status := .won, is_locked := true, locked_by := some 4, locked_at := some 9
      , contingency_pct := 0, management_reserve_pct := 0, notes := "" }
      ["admin"] 1 2 .review = .error .locked :=
  ⟨(c5_locked_rejection defaultSettings
      { status := .won, is_locked := true, locked_by := some 4, locked_at := some 9
      , contingency_pct := 0, management_reserve_pct := 0, notes := "" }
      ["admin"] 1 2 .review
      { contingency_pct := none, management_reserve_pct := none, notes := none }
      { name := "F", effort_hours := 10 } [] [] { name := none, effort_hours := none }
      none { name := "G", effort_hours := 5 }
      { role := "Developer", cost_rate_per_day := none, billing_rate_per_day := none
      , monthly_cost_rate := none, billing_rate := none, utilization_pct := 80
      , working_days_per_month := 20, hours_per_day := 8 } [] rfl).1,
   (c5_locked_rejection defaultSettings
      { status := .won, is_locked := true, locked_by := some 4, locked_at := some 9
      , contingency_pct := 0, management_reserve_pct := 0, notes := "" }
      ["admin"] 1 2 .review
      { contingency_pct := none, management_reserve_pct := none, notes := none }
      { name := "F", effort_hours := 10 } [] [] { name := none, effort_hours := none }
      none { name := "G", effort_hours := 5 }
      { role := "Developer", cost_rate_per_day := none, billing_rate_per_day := none
      , monthly_cost_rate := none, billing_rate := none, utilization_pct := 80
      , working_days_per_month := 20, hours_per_day := 8 } [] rfl).2.1⟩

/-- C7 counterexample: a member with monthly_cost_rate = 1000 and
working_days_per_month = −20 (the divisor is present but negative, so
per the claim the chain should fall through to the organization default
of 300) actually gets 1000 / −20 = −50: the code only requires the
divisor to be nonzero, not positive. -/
theorem c7_rate_chain_cex :
    resolve_cost_rate_per_day
      { role := "Developer", cost_rate_per_day := none, billing_rate_per_day := none
      , monthly_cost_rate := some 1000, billing_rate := none, utilization_pct := 100
      , working_days_per_month := -20, hours_per_day := 8 }
      [("developer", 300, 600)] = -50 ∧
    get_bu_rate_for_role "Developer" [("developer", 300, 600)] = (300, 600) ∧
    ((-50 : ℚ) ≠ 300) := by
  refine ⟨by norm_num [resolve_cost_rate_per_day], ?_, by norm_num⟩
  have h1 : strTrim "Developer" = "Developer" := by decide
  have h2 : strToLower "developer" = strToLower "Developer" := by decide
  simp [get_bu_rate_for_role, h1, h2, List.find?]

/-- C7 amended: the resolution chain returns the explicit per-day
override when present and positive; else the monthly ÷ working-days
(cost) or hourly × hours-per-day (billing) conversion when the override
is present and positive and its divisor/multiplier is **nonzero** (not
necessarily positive); else the organization default for the role,
where a blank role or an absence of any case-insensitive trimmed match
yields zero, and a case-insensitive match returns some matching
entry's rate.  All cases are total: no division by zero occurs. -/
theorem c7_rate_resolution_spec (m : TeamMember) (default_rates : RateTable) :
    (∀ c, m.cost_rate_per_day = some c → 0 < c →
      resolve_cost_rate_per_day m default_rates = c) ∧
    (m.cost_rate_per_day.getD 0 ≤ 0 →
      ∀ mc, m.monthly_cost_rate = some mc → 0 < mc → m.working_days_per_month ≠ 0 →
        resolve_cost_rate_per_day m default_rates = mc / (m.working_days_per_month : ℚ)) ∧
    (m.cost_rate_per_day.getD 0 ≤ 0 →
      (m.monthly_cost_rate.getD 0 ≤ 0 ∨ m.working_days_per_month = 0) →
      resolve_cost_rate_per_day m default_rates =
        (get_bu_rate_for_role m.role default_rates).1) ∧
    (∀ b, m.billing_rate_per_day = some b → 0 < b →
      resolve_billing_rate_per_day m default_rates = b) ∧
    (m.billing_rate_per_day.getD 0 ≤ 0 →
      ∀ hb, m.billing_rate = some hb → 0 < hb → m.hours_per_day ≠ 0 →
        resolve_billing_rate_per_day m default_rates = hb * (m.hours_per_day : ℚ)) ∧
    (m.billing_rate_per_day.getD 0 ≤ 0 →
      (m.billing_rate.getD 0 ≤ 0 ∨ m.hours_per_day = 0) →
      resolve_billing_rate_per_day m default_rates =
        (get_bu_rate_for_role m.role default_rates).2) ∧
    (strTrim m.role = "" → get_bu_rate_for_role m.role default_rates = (0, 0)) ∧
    ((∀ kv ∈ default_rates, strToLower kv.1 ≠ strToLower (strTrim m.role)) →
      get_bu_rate_for_role m.role default_rates = (0, 0)) ∧
    (∀ kv ∈ default_rates, strToLower kv.1 = strToLower (strTrim m.role) →
      strTrim m.role ≠ "" →
      ∃ kv2 ∈ default_rates, strToLower kv2.1 = strToLower (strTrim m.role) ∧
        get_bu_rate_for_role m.role default_rates = kv2.2) := by
  refine ⟨?_, ?_, ?_, ?_, ?_, ?_, ?_, ?_, ?_⟩
  · intro c hc hpos
    simp [resolve_cost_rate_per_day, hc, hpos]
  · intro hnp mc hmc hpos hwd
    have h1 : ¬ 0 < m.cost_rate_per_day.getD 0 := not_lt.mpr hnp
    simp [resolve_cost_rate_per_day, h1, hmc, hpos, hwd]
  · intro hnp hsnd
    have h1 : ¬ 0 < m.cost_rate_per_day.getD 0 := not_lt.mpr hnp
    have h2 : ¬ (0 < m.monthly_cost_rate.getD 0 ∧ m.working_days_per_month ≠ 0) := by
      rcases hsnd with h | h
      · exact fun hh => absurd hh.1 (not_lt.mpr h)
      · exact fun hh => hh.2 h
    simp [resolve_cost_rate_per_day, h1, h2]
  · intro b hb hpos
    simp [resolve_billing_rate_per_day, hb, hpos]
  · intro hnp hb hhb hpos hhpd
    have h1 : ¬ 0 < m.billing_rate_per_day.getD 0 := not_lt.mpr hnp
    simp [resolve_billing_rate_per_day, h1, hhb, hpos, hhpd]
  · intro hnp hsnd
    have h1 : ¬ 0 < m.billing_rate_per_day.getD 0 := not_lt.mpr hnp
    have h2 : ¬ (0 < m.billing_rate.getD 0 ∧ m.hours_per_day ≠ 0) := by
      rcases hsnd with h | h
      · exact fun hh => absurd hh.1 (not_lt.mpr h)
      · exact fun hh => hh.2 h
    simp [resolve_billing_rate_per_day, h1, h2]
  · intro h
    simp [get_bu_rate_for_role, h]
  · intro hno
    unfold get_bu_rate_for_role
    by_cases hrole : strTrim m.role = ""
    · simp [hrole]
    · rw [if_neg hrole]
      have h1 : default_rates.find? (fun kv => kv.1 = strTrim m.role) = none := by
        rw [List.find?_eq_none]
        intro kv hkv
        simp only [decide_eq_true_eq]
        intro heq
        exact hno kv hkv (by rw [heq])
      have h2 : default_rates.find?
          (fun kv => strToLower kv.1 = strToLower (strTrim m.role)) = none := by
        rw [List.find?_eq_none]
        intro kv hkv
        simp only [decide_eq_true_eq]
        exact hno kv hkv
      simp only [h1, h2]
  · intro kv hkv hmatch hne
    unfold get_bu_rate_for_role
    rw [if_neg hne]
    cases hfind : default_rates.find? (fun kv2 => kv2.1 = strTrim m.role) with
    | some kv0 =>
        have hmem := List.mem_of_find?_eq_some hfind
        have hp := List.find?_some hfind
        simp only [decide_eq_true_eq] at hp
        refine ⟨kv0, hmem, by rw [hp], ?_⟩
        simp only [hfind]
    | none =>
        cases hfind2 : default_rates.find?
            (fun kv2 => strToLower kv2.1 = strToLower (strTrim m.role)) with
        | some kv0 =>
            have hmem := List.mem_of_find?_eq_some hfind2
            have hp := List.find?_some hfind2
            simp only [decide_eq_true_eq] at hp
            refine ⟨kv0, hmem, hp, ?_⟩
            simp only [hfind, hfind2]
        | none =>
            exfalso
            rw [List.find?_eq_none] at hfind2
            have := hfind2 kv hkv
            simp only [decide_eq_true_eq] at this
            exact this hmatch

/-- Witness for C7: a member with a positive per-day override of 520
resolves to 520 on the cost side, and a blank role resolves to the zero
organization rate. -/
theorem c7_rate_resolution_spec_witness :
    resolve_cost_rate_per_day
      { role := "Developer", cost_rate_per_day := some 520, billing_rate_per_day := none
      , monthly_cost_rate := none, billing_rate := none, utilization_pct := 100
      , working_days_per_month := 20, hours_per_day := 8 }
      [("developer", 300, 600)] = 520 ∧
    get_bu_rate_for_role "  " [("developer", 300, 600)] = (0, 0) :=
  ⟨(c7_rate_resolution_spec
      { role := "Developer", cost_rate_per_day := some 520, billing_rate_per_day := none
      , monthly_cost_rate := none, billing_rate := none, utilization_pct := 100
      , working_days_per_month := 20, hours_per_day := 8 }
      [("developer", 300, 600)]).1 520 rfl (by norm_num),
   (c7_rate_resolution_spec
      { role := "  ", cost_rate_per_day := none, billing_rate_per_day := none
      , monthly_cost_rate := none, billing_rate := none, utilization_pct := 100
      , working_days_per_month := 20, hours_per_day := 8 }
      [("developer", 300, 600)]).2.2.2.2.2.2.1 (by decide)⟩

/-- C8: when every feature lacks explicit allocations and the team is
non-empty, the whole `base_cost` is computed from the **first** team
member alone (its role fixes the contingency multiplier, its resolved
rate, effective hours-per-day and utilization price every feature); and
the concrete scenario of the spec — one Developer at 500/day, 80%
utilization, 8h days, one 80-hour feature — yields exactly 6875. -/
theorem c8_first_member_fallback (s : Settings) (m0 : TeamMember)
    (rest : List TeamMember) (features : List Feature)
    (effort_allocations : Nat → List EffortAllocation) (default_rates : RateTable)
    (hempty : ∀ f ∈ features, effort_allocations f.id = []) :
    base_cost s (m0 :: rest) features effort_allocations default_rates =
      roundTo2 ((features.map (fun f =>
        let role_hours := f.effort_hours * task_contingency_multiplier m0.role s
        let hpd : ℚ := ((if m0.hours_per_day ≠ 0 then m0.hours_per_day
                         else s.default_hours_per_day) : ℚ)
        let util := m0.utilization_pct / 100
        if 0 < hpd ∧ 0 < util then
          role_hours * (resolve_cost_rate_per_day m0 default_rates / (hpd * util))
        else 0)).sum) ∧
    base_cost defaultSettings
      [{ role := "Developer", cost_rate_per_day := some 500
       , billing_rate_per_day := some 1000, monthly_cost_rate := none
       , billing_rate := none, utilization_pct := 80
       , working_days_per_month := 20, hours_per_day := 8 }]
      [{ id := 1, name := "F", effort_hours := 80 }] (fun _ => []) [] = 6875 := by
  constructor
  · unfold base_cost
    have hmap : (features.map (fun f =>
        feature_cost s (m0 :: rest) (effort_allocations f.id) f default_rates)) =
        features.map (fun f =>
          let role_hours := f.effort_hours * task_contingency_multiplier m0.role s
          let hpd : ℚ := ((if m0.hours_per_day ≠ 0 then m0.hours_per_day
                           else s.default_hours_per_day) : ℚ)
          let util := m0.utilization_pct / 100
          if 0 < hpd ∧ 0 < util then
            role_hours * (resolve_cost_rate_per_day m0 default_rates / (hpd * util))
          else 0) := by
      apply List.map_congr_left
      intro f hf
      rw [hempty f hf]
      rfl
    rw [hmap]
  · have h1 : strTrim "Developer" = "Developer" := by decide
    have h2 : strToLower "Developer" = "developer" := by decide
    have h3 : strContains "developer" "junior" = false := by decide
    have h4 : strContains "developer" "jr " = false := by decide
    have h5 : strContains "developer" "senior" = false := by decide
    have h6 : strContains "developer" "sr " = false := by decide
    have h7 : strContains "developer" "lead" = false := by decide
    norm_num [base_cost, feature_cost, task_contingency_multiplier, resolve_cost_rate_per_day,
      defaultSettings, roundTo2, roundHalfUpInt, h1, h2, h3, h4, h5, h6, h7]

/-- Witness for C8 at the spec scenario (one Developer, one 80-hour
feature with no allocations). -/
theorem c8_first_member_fallback_witness :
    base_cost defaultSettings
      [{ role := "Developer", cost_rate_per_day := some 500
       , billing_rate_per_day := some 1000, monthly_cost_rate := none
       , billing_rate := none, utilization_pct := 80
       , working_days_per_month := 20, hours_per_day := 8 }]
      [{ id := 1, name := "F", effort_hours := 80 }] (fun _ => []) [] = 6875 :=
  (c8_first_member_fallback defaultSettings
      { role := "Developer", cost_rate_per_day := some 500
      , billing_rate_per_day := some 1000, monthly_cost_rate := none
      , billing_rate := none, utilization_pct := 80
      , working_days_per_month := 20, hours_per_day := 8 }
      [] [{ id := 1, name := "F", effort_hours := 80 }] (fun _ => []) []
      (fun _ _ => rfl)).2

/-- Half-up rounding moves a value by at most 1/2. -/
theorem roundHalfUpInt_close (x : ℚ) : |(roundHalfUpInt x : ℚ) - x| ≤ 1/2 := by
  unfold roundHalfUpInt
  by_cases h : 0 ≤ x
  · rw [if_pos h, abs_le]
    constructor
    · have := Int.sub_one_lt_floor (x + 1/2)
      push_cast at this ⊢
      linarith
    · have := Int.floor_le (x + 1/2)
      push_cast at this ⊢
      linarith
  · rw [if_neg h, abs_le]
    constructor
    · have := Int.floor_le (-x + 1/2)
      push_cast at this ⊢
      linarith
    · have := Int.sub_one_lt_floor (-x + 1/2)
      push_cast at this ⊢
      linarith

/-- Rounding to two decimal places moves a value by at most 1/200. -/
theorem roundTo2_close (x : ℚ) : |roundTo2 x - x| ≤ 1/200 := by
  have h := roundHalfUpInt_close (x * 100)
  unfold roundTo2
  have heq : (roundHalfUpInt (x * 100) : ℚ) / 100 - x
      = ((roundHalfUpInt (x * 100) : ℚ) - x * 100) / 100 := by ring
  rw [heq, abs_div, abs_of_pos (show (0:ℚ) < 100 by norm_num)]
  rw [div_le_iff₀ (show (0:ℚ) < 100 by norm_num)]
  linarith

/-- C2: for every pair of rationals, `gross_margin` is `none` exactly when
the revenue is zero, and otherwise equals the half-up 2-place rounding of
(revenue − cost) / revenue × 100. -/
theorem c2_gross_margin_spec (revenue cost : ℚ) :
    (gross_margin revenue cost = none ↔ revenue = 0) ∧
    (revenue ≠ 0 →
      gross_margin revenue cost = some (roundTo2 ((revenue - cost) / revenue * 100))) := by
  refine ⟨⟨fun h => ?_, fun h => by simp [gross_margin, h]⟩, fun h => by simp [gross_margin, h]⟩
  by_contra hr
  simp [gross_margin, hr] at h

/-- Witness for C2 at revenue = 200, cost = 100. -/
theorem c2_gross_margin_spec_witness :
    gross_margin 200 100 = some (roundTo2 ((200 - 100) / 200 * 100)) :=
  (c2_gross_margin_spec 200 100).2 (by norm_num)

/-- C3 counterexample: at previous = −100, new = −200 the code returns
`true` (it takes the absolute value of the whole quotient), while the
claim's formula |new − previous| / previous × 100 = −100 is not greater
than the default threshold 15, so the claim's biconditional fails. -/
theorem c3_threshold_formula_cex :
    effort_override_exceeds_threshold defaultSettings (-100) (-200) = true ∧
    ¬ ((15 : ℚ) < |(-200 : ℚ) - (-100)| / (-100) * 100) := by
  constructor
  · norm_num [effort_override_exceeds_threshold, defaultSettings]
  · norm_num

/-- C3 amended: the predicate is true iff previous = 0 and new ≠ 0, or
previous ≠ 0 and the absolute value of the whole percent-change quotient
|(new − previous)/previous × 100| strictly exceeds the configured
threshold; at the default threshold 15, (100, 114) is below and
(100, 116) above the boundary. -/
theorem c3_effort_override_exceeds_threshold_spec (s : Settings) (previous new : ℚ) :
    (effort_override_exceeds_threshold s previous new = true ↔
      ((previous = 0 ∧ new ≠ 0) ∨
       (previous ≠ 0 ∧
        s.effort_override_threshold < |(new - previous) / previous * 100|))) ∧
    effort_override_exceeds_threshold defaultSettings 100 114 = false ∧
    effort_override_exceeds_threshold defaultSettings 100 116 = true := by
  refine ⟨?_, by norm_num [effort_override_exceeds_threshold, defaultSettings],
    by norm_num [effort_override_exceeds_threshold, defaultSettings]⟩
  unfold effort_override_exceeds_threshold
  by_cases h : previous = 0 <;> simp [h]

/-- C9 counterexample: cost = 1/1000 is positive, yet the required
revenue rounds to 0, so the round-trip margin is `none` rather than a
value near the target 0 — the claim's parenthetical "cost > 0 so the
revenue is non-zero" is false. -/
theorem c9_roundtrip_cex :
    (0 : ℚ) < 1/1000 ∧
    reverse_margin_revenue (1/1000) 0 = 0 ∧
    gross_margin (reverse_margin_revenue (1/1000) 0) (1/1000) = none := by
  have h : reverse_margin_revenue (1/1000) 0 = 0 := by
    norm_num [reverse_margin_revenue, roundTo2, roundHalfUpInt]
  refine ⟨by norm_num, h, ?_⟩
  rw [h]
  norm_num [gross_margin]

/-- C9 amended: `reverse_margin_revenue` returns 0 when the target is at
least 100 or the divisor 1 − target/100 is nonpositive, otherwise the
half-up rounding of cost / (1 − target/100); and for cost ≥ 1 (so the
rounded revenue stays positive) the round-trip margin is defined and
within 51/100 of the target for all 0 ≤ m < 100. -/
theorem c9_reverse_margin_revenue_spec (cost m : ℚ) (hcost : 0 ≤ cost) :
    (100 ≤ m → reverse_margin_revenue cost m = 0) ∧
    (1 - m / 100 ≤ 0 → reverse_margin_revenue cost m = 0) ∧
    (m < 100 → reverse_margin_revenue cost m = roundTo2 (cost / (1 - m / 100))) ∧
    (1 ≤ cost → 0 ≤ m → m < 100 →
      ∃ g, gross_margin (reverse_margin_revenue cost m) cost = some g ∧
        |g - m| ≤ 51/100) := by
  have hcases : ∀ hm : m < 100,
      reverse_margin_revenue cost m = roundTo2 (cost / (1 - m / 100)) := by
    intro hm
    unfold reverse_margin_revenue
    rw [if_neg (not_le.mpr hm)]
    have hfpos : (0:ℚ) < 1 - m / 100 := by linarith
    rw [if_neg (not_le.mpr hfpos)]
  refine ⟨?_, ?_, hcases, ?_⟩
  · intro h
    unfold reverse_margin_revenue
    rw [if_pos h]
  · intro h
    unfold reverse_margin_revenue
    by_cases h100 : 100 ≤ m
    · rw [if_pos h100]
    · rw [if_neg h100, if_pos h]
  · intro hc1 hm0 hm1
    have hfpos : (0:ℚ) < 1 - m / 100 := by linarith
    have hf1 : 1 - m / 100 ≤ 1 := by linarith
    set f : ℚ := 1 - m / 100 with hfdef
    set rstar : ℚ := cost / f with hrstardef
    have hrs : 1 ≤ rstar := by
      rw [hrstardef, le_div_iff hfpos]
      nlinarith
    set R : ℚ := roundTo2 rstar with hRdef
    have hclose : |R - rstar| ≤ 1/200 := roundTo2_close rstar
    have hclose2 := abs_le.mp hclose
    have hR199 : 199/200 ≤ R := by linarith [hclose2.1]
    have hRpos : (0:ℚ) < R := by linarith
    have hrev : reverse_margin_revenue cost m = R := hcases hm1
    have hgm : gross_margin R cost = some (roundTo2 ((R - cost) / R * 100)) := by
      unfold gross_margin
      rw [if_neg (ne_of_gt hRpos)]
    refine ⟨roundTo2 ((R - cost) / R * 100), by rw [hrev]; exact hgm, ?_⟩
    set y : ℚ := (R - cost) / R * 100 with hydef
    have hgy : |roundTo2 y - y| ≤ 1/200 := roundTo2_close y
    have hcost_eq : cost = f * rstar := by
      rw [hrstardef]
      field_simp
    have hy_eq : y - m = 100 * f * (R - rstar) / R := by
      rw [hydef, hcost_eq, hfdef]
      field_simp
      ring
    have hym : |y - m| ≤ 100/199 := by
      rw [hy_eq, abs_div, abs_of_pos hRpos, div_le_iff hRpos]
      have habs1 : |100 * f * (R - rstar)| = 100 * f * |R - rstar| := by
        rw [abs_mul, abs_of_pos (show (0:ℚ) < 100 * f by nlinarith)]
      rw [habs1]
      nlinarith [abs_nonneg (R - rstar)]
    calc |roundTo2 y - m| ≤ |roundTo2 y - y| + |y - m| := abs_sub_le _ y m
      _ ≤ 1/200 + 100/199 := by linarith
      _ ≤ 51/100 := by norm_num

/-- Witness for C9 at cost = 200, target margin 50. -/
theorem c9_reverse_margin_revenue_spec_witness :
    reverse_margin_revenue 200 50 = roundTo2 (200 / (1 - 50 / 100)) ∧
    (∃ g, gross_margin (reverse_margin_revenue 200 50) 200 = some g ∧
      |g - 50| ≤ 51/100) :=
  ⟨(c9_reverse_margin_revenue_spec 200 50 (by norm_num)).2.2.1 (by norm_num),
   (c9_reverse_margin_revenue_spec 200 50 (by norm_num)).2.2.2
     (by norm_num) (by norm_num) (by norm_num)⟩

end EDPPP
